import Mathlib

/-!
Shallow embedding of the GPA-prediction pipeline of this repository:
`src/feature_engineering.py` (build_feature_preprocessor: StandardScaler on
5 numeric features + OneHotEncoder(drop="first") on 3 categorical features,
remainder="passthrough"), `src/predict.py` (predict_gpa) and the
data-cleaning step of `main.py` (load_and_clean_data).

Machine floats are modelled by rationals; `round(x, 2)` is modelled as
round-half-to-even of `100 * x` divided by 100, matching Python/NumPy
banker's rounding at the ideal (real-number) level.
-/

namespace GpaPredict

/-- A scalar cell value of a feature row: the rows of this system hold either
a string (the `major` institution name) or a number (ints and floats of the
numeric and 0/1 categorical features), so those are the two cases modelled. -/
inductive Value where
  | str (s : String)
  | num (q : ℚ)
deriving DecidableEq

/-- A feature row: a Python dict from feature name to value, modelled as an
association list with distinct keys (dict semantics: first binding wins). -/
abbrev Row := List (String × Value)

/-- Dict lookup: `row[key]`, `key in row`. -/
def rowGet : Row → String → Option Value
  | [], _ => none
  | (k, v) :: rest, key => if k = key then some v else rowGet rest key

/-- `required_features` of `src/predict.py` (lines 47-50). -/
def required_features : List String :=
  ["major", "gender", "attendance", "homework_completion",
   "lib_borrow", "club_participation", "class_interaction", "exam_score"]

/-- `numeric_features` of `src/predict.py` (lines 56-57). -/
def numeric_features : List String :=
  ["attendance", "homework_completion", "lib_borrow",
   "class_interaction", "exam_score"]

/-- `num_features` of `src/feature_engineering.py` (lines 12-15). -/
def num_features : List String :=
  ["attendance", "homework_completion", "lib_borrow",
   "class_interaction", "exam_score"]

/-- `cat_features` of `src/feature_engineering.py` (line 17). -/
def cat_features : List String := ["major", "gender", "club_participation"]

/-- Mean of a list of rationals (0 for the empty list, as 0/0 = 0 in ℚ). -/
def listMean (l : List ℚ) : ℚ := l.sum / l.length

/-- Population variance (ddof = 0, as sklearn StandardScaler uses). -/
def listVar (l : List ℚ) : ℚ :=
  (l.map (fun x => (x - listMean l) ^ 2)).sum / l.length

/-- The numeric values of column `f` across a list of rows. -/
def colVals (rows : List Row) (f : String) : List ℚ :=
  rows.filterMap (fun r =>
    match rowGet r f with
    | some (.num q) => some q
    | _ => none)

/-- Fit-time mean of column `f`. -/
def colMean (rows : List Row) (f : String) : ℚ := listMean (colVals rows f)

/-- Fit-time population variance of column `f`. -/
def colVar (rows : List Row) (f : String) : ℚ := listVar (colVals rows f)

/-- A fitted StandardScaler for one numeric column: `mean_` and the standard
deviation computed at fit time (`sqrt` of the population variance; kept
relational because the square root of a rational variance need not be
rational — see `scalerSpec`). -/
structure FittedScaler where
  mean : ℚ
  std : ℚ
deriving DecidableEq

/-- `sc` is a StandardScaler fitted on column values `xs`: its mean is the
column mean and its std is the nonnegative square root of the population
variance. -/
def scalerSpec (xs : List ℚ) (sc : FittedScaler) : Prop :=
  sc.mean = listMean xs ∧ 0 ≤ sc.std ∧ sc.std ^ 2 = listVar xs

/-- StandardScaler.transform on one cell: `(v - mean_) / scale_`, where
sklearn's `_handle_zeros_in_scale` replaces a zero std by 1 so a constant
column never causes a division by zero. -/
def FittedScaler.transform (sc : FittedScaler) (v : ℚ) : ℚ :=
  (v - sc.mean) / (if sc.std = 0 then 1 else sc.std)

/-- Total order used by `np.unique` when OneHotEncoder sorts the category
vocabulary: numbers by value, strings lexicographically (a column is
uniformly typed in this system, so the cross cases are arbitrary). -/
def valLE : Value → Value → Bool
  | .num a, .num b => decide (a ≤ b)
  | .num _, .str _ => true
  | .str _, .num _ => false
  | .str a, .str b => decide (a ≤ b)

/-- Insertion step of the sort producing the category vocabulary. -/
def insertVal (v : Value) : List Value → List Value
  | [] => [v]
  | w :: ws => if valLE v w then v :: w :: ws else w :: insertVal v ws

/-- Insertion sort by `valLE`. -/
def sortVals : List Value → List Value
  | [] => []
  | v :: vs => insertVal v (sortVals vs)

/-- OneHotEncoder.fit on one categorical column: `categories_` is the sorted
list of distinct values observed in the training rows. -/
def fitVocab (rows : List Row) (f : String) : List Value :=
  sortVals ((rows.filterMap (fun r => rowGet r f)).dedup)

/-- Errors raised while transforming a row through the fitted
ColumnTransformer (they surface as Python exceptions). -/
inductive TErr where
  | unseenCategory (feat : String)
  | missingColumn (feat : String)
  | nonNumeric (feat : String)
deriving DecidableEq

/-- Error-propagating map over a list (the first failure aborts, as a raised
exception does). -/
def mapE (f : α → Except ε β) : List α → Except ε (List β)
  | [] => .ok []
  | a :: as =>
    match f a with
    | .error e => .error e
    | .ok b =>
      match mapE f as with
      | .error e => .error e
      | .ok bs => .ok (b :: bs)

/-- One numeric cell through the fitted scaler of its column. -/
def scaleLookup (r : Row) (f : String) (sc : FittedScaler) : Except TErr ℚ :=
  match rowGet r f with
  | some (.num q) => .ok (sc.transform q)
  | some _ => .error (.nonNumeric f)
  | none => .error (.missingColumn f)

/-- One categorical cell through OneHotEncoder.transform with
drop="first" and the default handle_unknown="error" (the source constructs
`OneHotEncoder(drop="first", sparse_output=False)` without overriding
handle_unknown): a vocabulary value yields one indicator per non-dropped
category; an unseen value raises. -/
def oheLookup (r : Row) (f : String) (cs : List Value) : Except TErr (List ℚ) :=
  match rowGet r f with
  | some v =>
    if v ∈ cs then
      .ok (cs.tail.map (fun c => if c = v then (1 : ℚ) else 0))
    else .error (.unseenCategory f)
  | none => .error (.missingColumn f)

/-- One passthrough cell (remainder="passthrough" copies the raw value). -/
def remLookup (r : Row) (c : String) : Except TErr Value :=
  match rowGet r c with
  | some v => .ok v
  | none => .error (.missingColumn c)

/-- The fitted ColumnTransformer artifact of `build_feature_preprocessor`:
a fitted scaler per numeric feature (in declared order), a fitted category
vocabulary per categorical feature (in declared order), and the remainder
columns recorded at fit time in their original order. -/
structure FittedPre where
  numScalers : List (String × FittedScaler)
  catVocabs : List (String × List Value)
  remainder : List String
deriving DecidableEq

/-- ColumnTransformer.transform on a single row: the scaled numeric block in
declared order, then the one-hot indicator block per categorical feature in
declared order, then the passthrough remainder columns. -/
def FittedPre.transformRow (art : FittedPre) (r : Row) : Except TErr (List Value) :=
  match mapE (fun p => scaleLookup r p.1 p.2) art.numScalers with
  | .error e => .error e
  | .ok nums =>
    match mapE (fun p => oheLookup r p.1 p.2) art.catVocabs with
    | .error e => .error e
    | .ok cats =>
      match mapE (fun c => remLookup r c) art.remainder with
      | .error e => .error e
      | .ok rem =>
        .ok (nums.map Value.num ++ cats.flatten.map Value.num ++ rem)

/-- The fitted preprocessor built from training rows, parametrised by the
(possibly irrational, hence supplied) per-column standard deviations. -/
def fitPreWith (rows : List Row) (fitCols : List String) (std : String → ℚ) : FittedPre :=
  { numScalers := num_features.map (fun f => (f, ⟨colMean rows f, std f⟩)),
    catVocabs := cat_features.map (fun f => (f, fitVocab rows f)),
    remainder := fitCols.filter
      (fun c => !(num_features.contains c || cat_features.contains c)) }

/-- `art` is the preprocessor of `build_feature_preprocessor` fitted on
`rows` whose DataFrame has columns `fitCols`: some valid standard deviation
assignment produces exactly it. -/
def fitPreSpec (rows : List Row) (fitCols : List String) (art : FittedPre) : Prop :=
  ∃ std : String → ℚ,
    (∀ f ∈ num_features, 0 ≤ std f ∧ (std f) ^ 2 = colVar rows f) ∧
    art = fitPreWith rows fitCols std

/-- Dot product (the fitted linear model is applied to a vector of the
matching dimension; extra coordinates on either side contribute nothing). -/
def dotQ : List ℚ → List ℚ → ℚ
  | a :: as, b :: bs => a * b + dotQ as bs
  | _, _ => 0

/-- The persisted fitted LinearRegression artifact. -/
structure LinearModel where
  coef : List ℚ
  intercept : ℚ
deriving DecidableEq

/-- LinearRegression.predict on one transformed vector. -/
def LinearModel.predict (m : LinearModel) (xs : List ℚ) : ℚ :=
  m.intercept + dotQ m.coef xs

/-- Extract the numeric entries of a transformed row; fails if any entry is
not numeric (a string reaching the regressor would raise in Python). -/
def asNums : List Value → Option (List ℚ)
  | [] => some []
  | .num q :: rest => (asNums rest).map (fun l => q :: l)
  | .str _ :: _ => none

/-- `np.clip(x, lo, hi)`. -/
def clipQ (lo hi x : ℚ) : ℚ := min (max x lo) hi

/-- Round to the nearest integer, ties to even (Python/NumPy rounding). -/
def roundHalfEven (x : ℚ) : ℤ :=
  if x - ⌊x⌋ < 1 / 2 then ⌊x⌋
  else if 1 / 2 < x - ⌊x⌋ then ⌊x⌋ + 1
  else if ⌊x⌋ % 2 = 0 then ⌊x⌋ else ⌊x⌋ + 1

/-- `round(x, 2)`: round to 2 decimal places, ties to even. -/
def round2 (x : ℚ) : ℚ := (roundHalfEven (100 * x) : ℚ) / 100

/-- The local filesystem visible to `predict_gpa`: the sets of existing
directories and existing regular files. -/
structure FS where
  dirs : List String
  files : List String
deriving DecidableEq

/-- `os.path.exists`. -/
def FS.pathExists (fs : FS) (p : String) : Bool :=
  fs.dirs.contains p || fs.files.contains p

/-- `os.path.isdir`. -/
def FS.isDir (fs : FS) (p : String) : Bool := fs.dirs.contains p

/-- `os.path.join` on the POSIX form used throughout the repository. -/
def joinPath (a b : String) : String := a ++ "/" ++ b

/-- The world `predict_gpa` runs in: the filesystem, plus the deserializable
content of the two pickle paths (`none` means `joblib.load` would fail on
the file found there). -/
structure Env where
  fs : FS
  modelArtifact : Option LinearModel
  preArtifact : Option FittedPre
deriving DecidableEq

/-- A Python argument value as far as `predict_gpa`'s own checks see it:
a dict (a feature row), a string, or anything else. -/
inductive PyVal where
  | vdict (r : Row)
  | vstr (s : String)
  | vother
deriving DecidableEq

/-- The exceptions `predict_gpa` raises, in source order of their raise
sites in `src/predict.py`. -/
inductive PError where
  | typeErrNotDict
  | notADirectory
  | modelsDirMissing (dir : String)
  | preprocessorMissing (path : String)
  | modelFileMissing (path : String)
  | loadFailure
  | missingFeatures (feats : List String)
  | typeMismatch (feat : String)
  | transformErr (e : TErr)
  | nonNumericModelInput
deriving DecidableEq

/-- The instruction appended to the two artifact-file-missing messages. -/
def trainFirstMsg : String := "请先运行main.py训练模型"

/-- The message of each artifact-related FileNotFoundError, from the
f-strings of `src/predict.py` lines 30-34. -/
def errMessage : PError → String
  | .modelsDirMissing dir => "❌ 模型目录不存在：" ++ dir
  | .preprocessorMissing path =>
      "❌ 特征流水线缺失：" ++ path ++ "\n" ++ trainFirstMsg
  | .modelFileMissing path =>
      "❌ 模型文件缺失：" ++ path ++ "\n" ++ trainFirstMsg
  | _ => ""

/-- Whether `small` occurs at the start of `l`. -/
def leadsWith : List Char → List Char → Bool
  | [], _ => true
  | _ :: _, [] => false
  | a :: as, b :: bs => a == b && leadsWith as bs

/-- Whether `sub` occurs contiguously inside `l`. -/
def hasSub (sub : List Char) : List Char → Bool
  | [] => leadsWith sub []
  | b :: bs => leadsWith sub (b :: bs) || hasSub sub bs

/-- Whether string `sub` is a substring of `s`. -/
def containsSub (s sub : String) : Bool := hasSub sub.toList s.toList

/-- Whether the error's message carries the train-the-model-first
instruction. -/
def mentionsTrainFirst (e : PError) : Bool :=
  containsSub (errMessage e) trainFirstMsg

/-- Is the looked-up cell of a numeric dtype (is_numeric_dtype on the
one-value column a dict entry becomes)? -/
def isNumericVal : Option Value → Bool
  | some (.num _) => true
  | _ => false

/-- `predict_gpa` of `src/predict.py`, step for step in source order:
dict check, project-root directory check, models-directory and artifact
existence checks, artifact loading, missing-feature validation, numeric
dtype validation, preprocessor transform, linear-model predict, clip to
[1, 4] and round to 2 decimals. -/
def predict_gpa (env : Env) (newStudentData projectRoot : PyVal) : Except PError ℚ :=
  match newStudentData with
  | .vdict row =>
    match projectRoot with
    | .vstr root =>
      if env.fs.isDir root then
        let modelsDir := joinPath root "models"
        let modelPath := joinPath modelsDir "linear_regression.pkl"
        let prePath := joinPath modelsDir "feature_preprocessor.pkl"
        if env.fs.pathExists modelsDir then
          if env.fs.pathExists prePath then
            if env.fs.pathExists modelPath then
              match env.modelArtifact, env.preArtifact with
              | some model, some pre =>
                let missing := required_features.filter
                  (fun f => (rowGet row f).isNone)
                if missing.isEmpty then
                  match numeric_features.find?
                      (fun f => !isNumericVal (rowGet row f)) with
                  | some f => .error (.typeMismatch f)
                  | none =>
                    match pre.transformRow row with
                    | .error e => .error (.transformErr e)
                    | .ok vals =>
                      match asNums vals with
                      | none => .error .nonNumericModelInput
                      | some xs =>
                        .ok (round2 (clipQ 1 4 (model.predict xs)))
                else .error (.missingFeatures missing)
              | _, _ => .error .loadFailure
            else .error (.modelFileMissing modelPath)
          else .error (.preprocessorMissing prePath)
        else .error (.modelsDirMissing modelsDir)
      else .error .notADirectory
    | _ => .error .notADirectory
  | _ => .error .typeErrNotDict

/-- `clip_rules` of `main.py` `load_and_clean_data` (lines 88-91). -/
def clip_rules : List (String × ℚ × ℚ) :=
  [("gpa", 1, 4), ("attendance", 20, 32), ("homework_completion", 3 / 5, 1),
   ("lib_borrow", 0, 10), ("class_interaction", 0, 20), ("exam_score", 60, 100)]

/-- `Series.clip(min_val, max_val)` on one cell. -/
def clipValQ (lo hi q : ℚ) : ℚ := min (max q lo) hi

/-- Clip one cell into `[lo, hi]` (non-numeric cells are untouched; the
clipped columns of the dataset are numeric). -/
def clipCell (lo hi : ℚ) : Value → Value
  | .num q => .num (clipValQ lo hi q)
  | v => v

/-- Clip the cell of column `col` of one row into `[lo, hi]`. -/
def clipRowAt (col : String) (lo hi : ℚ) : Row → Row
  | [] => []
  | (k, v) :: rest =>
    (if k = col then (k, clipCell lo hi v) else (k, v)) :: clipRowAt col lo hi rest

/-- `(df[col] < min_val) | (df[col] > max_val)` on one row. -/
def outOfRange (col : String) (lo hi : ℚ) (r : Row) : Bool :=
  match rowGet r col with
  | some (.num q) => decide (q < lo) || decide (hi < q)
  | _ => false

/-- One iteration of the `for col, (min_val, max_val) in clip_rules.items()`
loop of `load_and_clean_data`: count the out-of-range rows of the column,
and clip the column when the count is positive. -/
def cleanStep (df : List Row) (rule : String × ℚ × ℚ) : List Row × Nat :=
  let cnt := df.countP (outOfRange rule.1 rule.2.1 rule.2.2)
  (if 0 < cnt then df.map (clipRowAt rule.1 rule.2.1 rule.2.2) else df, cnt)

/-- The whole loop: the cleaned rows plus the per-column corrected-row
counts it reports, in rule order. -/
def cleanRules : List (String × ℚ × ℚ) → List Row → List Row × List (String × Nat)
  | [], df => (df, [])
  | rule :: rest, df =>
    let step := cleanStep df rule
    let recres := cleanRules rest step.1
    (recres.1, (rule.1, step.2) :: recres.2)

/-- The outlier-handling phase of `load_and_clean_data` of `main.py`. -/
def cleanData (df : List Row) : List Row × List (String × Nat) :=
  cleanRules clip_rules df

/-- Column `col` of row `r` is inside `[lo, hi]` wherever it is numeric. -/
def inRangeRow (col : String) (lo hi : ℚ) (r : Row) : Prop :=
  ∀ q : ℚ, rowGet r col = some (.num q) → lo ≤ q ∧ q ≤ hi

/-- The numeric value of cell `f` of row `r` (default 0; only used in
statements whose hypotheses force the cell to be numeric). -/
def numValOf (r : Row) (f : String) : ℚ :=
  match rowGet r f with
  | some (.num q) => q
  | _ => 0

/-- The raw value of cell `f` of row `r` (only used in statements whose
hypotheses force the cell to be present). -/
def catValOf (r : Row) (f : String) : Value :=
  (rowGet r f).getD (.str "")

/-- The transformed vector of one row under the preprocessor fitted on
`rows` with standard deviations `std`: the standardized numeric block in
declared order, then each categorical feature's indicator block in
vocabulary order with the first (reference) category dropped. -/
def transformedRow (rows : List Row) (std : String → ℚ) (r : Row) : List Value :=
  (num_features.map fun f =>
    FittedScaler.transform ⟨colMean rows f, std f⟩ (numValOf r f)).map Value.num
  ++ ((cat_features.map fun f =>
    (fitVocab rows f).tail.map fun c =>
      if c = catValOf r f then (1 : ℚ) else 0).flatten).map Value.num

/-! ### Concrete fixtures

A small training set with constant numeric columns (so the fit-time
standard deviations are exactly 0 and the fitted artifact is
rational-exact), the artifact fitted on it, a persisted linear model, and
filesystem states with and without the artifacts. -/

/-- A student row whose numeric cells match the constant training columns. -/
def mkTrainRow (mj : String) (g cl : ℚ) : Row :=
  [("major", .str mj), ("gender", .num g), ("attendance", .num 30),
   ("homework_completion", .num (9 / 10)), ("lib_borrow", .num 4),
   ("club_participation", .num cl), ("class_interaction", .num 10),
   ("exam_score", .num 90)]

/-- Two training rows: majors "A"/"B", both genders, both club values,
all numeric columns constant. -/
def trainRowsC : List Row := [mkTrainRow "A" 1 1, mkTrainRow "B" 0 0]

/-- The preprocessor fitted on `trainRowsC` (all stds are 0), written out
literally; `artC_eq` below checks it against `fitPreWith`. -/
def artC : FittedPre :=
  ⟨[("attendance", ⟨30, 0⟩), ("homework_completion", ⟨9 / 10, 0⟩),
    ("lib_borrow", ⟨4, 0⟩), ("class_interaction", ⟨10, 0⟩),
    ("exam_score", ⟨90, 0⟩)],
   [("major", [.str "A", .str "B"]), ("gender", [.num 0, .num 1]),
    ("club_participation", [.num 0, .num 1])],
   []⟩

/-- A persisted linear model: GPA estimate = 3 + (scaled attendance). -/
def modelC : LinearModel := ⟨[1, 0, 0, 0, 0, 0, 0, 0], 3⟩

/-- Filesystem with the models directory and both artifact files present
under project root "root". -/
def fsC : FS := ⟨["root", "root/models"],
  ["root/models/linear_regression.pkl", "root/models/feature_preprocessor.pkl"]⟩

/-- Environment with both artifacts present and loadable. -/
def envC : Env := ⟨fsC, some modelC, some artC⟩

/-- Environment whose models directory does not exist at all. -/
def envNoDir : Env := ⟨⟨["root"], []⟩, some modelC, some artC⟩

/-- Environment whose models directory exists but whose feature
preprocessor file is absent. -/
def envNoPre : Env :=
  ⟨⟨["root", "root/models"], ["root/models/linear_regression.pkl"]⟩,
   some modelC, some artC⟩

/-- A complete, in-vocabulary student row. -/
def rowGood : Row := mkTrainRow "A" 1 1

/-- A complete row whose major "C" was never seen during fit. -/
def rowUnseen : Row := mkTrainRow "C" 1 1

/-- A complete row whose attendance 100 is far outside the declared domain
range 20-32. -/
def rowOOR : Row :=
  [("major", .str "A"), ("gender", .num 1), ("attendance", .num 100),
   ("homework_completion", .num (9 / 10)), ("lib_borrow", .num 4),
   ("club_participation", .num 1), ("class_interaction", .num 10),
   ("exam_score", .num 90)]

/-- A complete row whose attendance 99 differs from the constant fit value
30 of the zero-variance attendance column. -/
def row99 : Row :=
  [("major", .str "A"), ("gender", .num 1), ("attendance", .num 99),
   ("homework_completion", .num (9 / 10)), ("lib_borrow", .num 4),
   ("club_participation", .num 1), ("class_interaction", .num 10),
   ("exam_score", .num 90)]

/-- A row holding only 7 of the 8 required features (no exam_score). -/
def row7 : Row :=
  [("major", .str "A"), ("gender", .num 1), ("attendance", .num 30),
   ("homework_completion", .num (9 / 10)), ("lib_borrow", .num 4),
   ("club_participation", .num 1), ("class_interaction", .num 10)]

/-- A two-row training table with several out-of-range cells, for the
data-cleaning fixtures. -/
def dfDirty : List Row :=
  [[("gpa", .num 5), ("attendance", .num 10),
    ("homework_completion", .num (1 / 2)), ("lib_borrow", .num 3),
    ("class_interaction", .num 25), ("exam_score", .num 70)],
   [("gpa", .num 2), ("attendance", .num 28),
    ("homework_completion", .num (4 / 5)), ("lib_borrow", .num 12),
    ("class_interaction", .num 5), ("exam_score", .num 55)]]

/-- Discriminator: did `predict_gpa` fail with the missing-feature
(ValueError) exception? -/
def isMissingFeaturesErr : Except PError ℚ → Bool
  | .error (.missingFeatures _) => true
  | _ => false

/-! ### Helper lemmas -/

lemma mapE_ok_of_forall {α β ε : Type} (f : α → Except ε β) (g : α → β)
    (l : List α) (h : ∀ x ∈ l, f x = .ok (g x)) :
    mapE f l = .ok (l.map g) := by
  induction l with
  | nil => rfl
  | cons a as ih =>
    have ha := h a (List.mem_cons_self a as)
    have has := ih (fun x hx => h x (List.mem_cons_of_mem a hx))
    simp [mapE, ha, has]

lemma mapE_ok_forall_mem {α β ε : Type} (f : α → Except ε β)
    (l : List α) (ys : List β) (h : mapE f l = .ok ys) :
    ∀ x ∈ l, ∃ y, f x = .ok y := by
  induction l generalizing ys with
  | nil => intro x hx; cases hx
  | cons a as ih =>
    intro x hx
    revert h
    simp only [mapE]
    cases hfa : f a with
    | error e => intro h; cases h
    | ok b =>
      cases hrest : mapE f as with
      | error e => intro h; cases h
      | ok bs =>
        intro _
        rcases List.mem_cons.mp hx with rfl | hmem
        · exact ⟨b, hfa⟩
        · exact ih bs hrest x hmem

lemma asNums_map_num (xs : List ℚ) : asNums (xs.map Value.num) = some xs := by
  induction xs with
  | nil => rfl
  | cons q qs ih => simp [asNums, ih]

lemma asNums_map_num_append (xs ys : List ℚ) :
    asNums (xs.map Value.num ++ ys.map Value.num) = some (xs ++ ys) := by
  induction xs with
  | nil => simp [asNums_map_num]
  | cons q qs ih => simp [asNums, ih]

lemma floor_le_roundHalfEven (x : ℚ) : ⌊x⌋ ≤ roundHalfEven x := by
  unfold roundHalfEven
  split_ifs <;> omega

lemma roundHalfEven_le_floor_add_one (x : ℚ) : roundHalfEven x ≤ ⌊x⌋ + 1 := by
  unfold roundHalfEven
  split_ifs <;> omega

lemma roundHalfEven_intCast (n : ℤ) : roundHalfEven (n : ℚ) = n := by
  unfold roundHalfEven
  rw [Int.floor_intCast]
  norm_num

/-- Clamp-then-round keeps the result inside [1, 4]. -/
lemma round2_clip_bounds (x : ℚ) (h1 : 1 ≤ x) (h4 : x ≤ 4) :
    1 ≤ round2 x ∧ round2 x ≤ 4 := by
  have hl : (100 : ℤ) ≤ ⌊100 * x⌋ := by
    apply Int.le_floor.mpr
    push_cast
    linarith
  constructor
  · have hge : (100 : ℤ) ≤ roundHalfEven (100 * x) :=
      le_trans hl (floor_le_roundHalfEven _)
    unfold round2
    rw [le_div_iff₀ (by norm_num : (0 : ℚ) < 100)]
    exact_mod_cast by exact_mod_cast hge
  · rcases eq_or_lt_of_le h4 with heq | hlt
    · subst heq
      have h400 : roundHalfEven ((400 : ℤ) : ℚ) = 400 := roundHalfEven_intCast 400
      unfold round2
      norm_num at h400 ⊢
      rw [h400]
      norm_num
    · have hu : ⌊100 * x⌋ < 400 := by
        apply Int.floor_lt.mpr
        push_cast
        linarith
      have hle : roundHalfEven (100 * x) ≤ 400 :=
        le_trans (roundHalfEven_le_floor_add_one _) (by omega)
      unfold round2
      rw [div_le_iff₀ (by norm_num : (0 : ℚ) < 100)]
      calc ((roundHalfEven (100 * x) : ℤ) : ℚ) ≤ ((400 : ℤ) : ℚ) := by
            exact_mod_cast hle
        _ = 4 * 100 := by norm_num

lemma clipQ_bounds (x : ℚ) : 1 ≤ clipQ 1 4 x ∧ clipQ 1 4 x ≤ 4 := by
  unfold clipQ
  constructor
  · exact le_min (le_max_right x 1) (by norm_num)
  · exact min_le_right _ 4

/-- Transforming a row through a preprocessor fitted on the 8 schema
columns succeeds and produces exactly the `transformedRow` vector, provided
the numeric cells are numeric and the categorical cells were observed at
fit time. -/
lemma transformRow_fitPreWith (rows : List Row) (std : String → ℚ) (r : Row)
    (hnum : ∀ f ∈ num_features, ∃ q : ℚ, rowGet r f = some (.num q))
    (hcat : ∀ f ∈ cat_features, ∃ v, rowGet r f = some v ∧ v ∈ fitVocab rows f) :
    (fitPreWith rows required_features std).transformRow r
      = .ok (transformedRow rows std r) := by
  have hrem : (fitPreWith rows required_features std).remainder = [] := by
    simp [fitPreWith]
    decide
  have h1 : mapE (fun p => scaleLookup r p.1 p.2)
      (fitPreWith rows required_features std).numScalers
      = .ok ((fitPreWith rows required_features std).numScalers.map
          (fun p => p.2.transform (numValOf r p.1))) := by
    apply mapE_ok_of_forall
    intro p hp
    simp only [fitPreWith, List.mem_map] at hp
    obtain ⟨f, hf, rfl⟩ := hp
    obtain ⟨q, hq⟩ := hnum f hf
    simp [scaleLookup, hq, numValOf]
  have h2 : mapE (fun p => oheLookup r p.1 p.2)
      (fitPreWith rows required_features std).catVocabs
      = .ok ((fitPreWith rows required_features std).catVocabs.map
          (fun p => p.2.tail.map (fun c => if c = catValOf r p.1 then (1 : ℚ) else 0))) := by
    apply mapE_ok_of_forall
    intro p hp
    simp only [fitPreWith, List.mem_map] at hp
    obtain ⟨f, hf, rfl⟩ := hp
    obtain ⟨v, hv, hvmem⟩ := hcat f hf
    simp [oheLookup, hv, hvmem, catValOf]
  unfold FittedPre.transformRow
  rw [h1, h2, hrem]
  simp only [mapE]
  simp [transformedRow, fitPreWith, List.map_map]
  rfl

/-- The dimension of the transformed vector: 5 numeric columns plus, per
categorical feature, the number of fit-time categories minus one. -/
lemma transformedRow_length (rows : List Row) (std : String → ℚ) (r : Row) :
    (transformedRow rows std r).length
      = 5 + (cat_features.map (fun f => (fitVocab rows f).length - 1)).sum := by
  simp [transformedRow, List.length_flatten, List.map_map, Function.comp_def,
    List.length_map, List.length_tail, num_features]
  omega

/-- The numeric coordinates of the transformed vector. -/
lemma asNums_transformedRow (rows : List Row) (std : String → ℚ) (r : Row) :
    asNums (transformedRow rows std r)
      = some ((num_features.map fun f =>
          FittedScaler.transform ⟨colMean rows f, std f⟩ (numValOf r f))
        ++ (cat_features.map fun f =>
          (fitVocab rows f).tail.map fun c =>
            if c = catValOf r f then (1 : ℚ) else 0).flatten) := by
  unfold transformedRow
  exact asNums_map_num_append _ _

/-- When every check of `predict_gpa` passes, the returned value is the
clipped, rounded linear-model estimate of the transformed raw row. -/
lemma predict_gpa_ok (env : Env) (row : Row) (root : String)
    (model : LinearModel) (pre : FittedPre) (vals : List Value) (xs : List ℚ)
    (hdir : env.fs.isDir root = true)
    (hmd : env.fs.pathExists (joinPath root "models") = true)
    (hpp : env.fs.pathExists
      (joinPath (joinPath root "models") "feature_preprocessor.pkl") = true)
    (hmp : env.fs.pathExists
      (joinPath (joinPath root "models") "linear_regression.pkl") = true)
    (hm : env.modelArtifact = some model)
    (hp : env.preArtifact = some pre)
    (hmiss : required_features.filter (fun f => (rowGet row f).isNone) = [])
    (hfind : numeric_features.find? (fun f => !isNumericVal (rowGet row f)) = none)
    (htrans : pre.transformRow row = .ok vals)
    (hnums : asNums vals = some xs) :
    predict_gpa env (.vdict row) (.vstr root)
      = .ok (round2 (clipQ 1 4 (model.predict xs))) := by
  simp only [predict_gpa, hdir, hmd, hpp, hmp, hm, hp, hmiss, hfind, htrans,
    hnums, List.isEmpty_nil, if_true]

lemma rowGet_clipRowAt_ne (col : String) (lo hi : ℚ) (r : Row) (c : String)
    (h : c ≠ col) : rowGet (clipRowAt col lo hi r) c = rowGet r c := by
  induction r with
  | nil => rfl
  | cons kv rest ih =>
    obtain ⟨k, v⟩ := kv
    by_cases hk : k = col
    · have hkc : ¬(k = c) := fun hh => h (hh ▸ hk)
      have e1 : clipRowAt col lo hi ((k, v) :: rest)
          = (k, clipCell lo hi v) :: clipRowAt col lo hi rest := by
        simp only [clipRowAt]
        rw [if_pos hk]
      rw [e1]
      show (if k = c then some (clipCell lo hi v)
            else rowGet (clipRowAt col lo hi rest) c)
          = (if k = c then some v else rowGet rest c)
      rw [if_neg hkc, if_neg hkc]
      exact ih
    · have e1 : clipRowAt col lo hi ((k, v) :: rest)
          = (k, v) :: clipRowAt col lo hi rest := by
        simp only [clipRowAt]
        rw [if_neg hk]
      rw [e1]
      show (if k = c then some v else rowGet (clipRowAt col lo hi rest) c)
          = (if k = c then some v else rowGet rest c)
      by_cases hkc : k = c
      · rw [if_pos hkc, if_pos hkc]
      · rw [if_neg hkc, if_neg hkc]
        exact ih

lemma rowGet_clipRowAt_self (col : String) (lo hi : ℚ) (r : Row) :
    rowGet (clipRowAt col lo hi r) col
      = (rowGet r col).map (clipCell lo hi) := by
  induction r with
  | nil => rfl
  | cons kv rest ih =>
    obtain ⟨k, v⟩ := kv
    by_cases hk : k = col
    · have e1 : clipRowAt col lo hi ((k, v) :: rest)
          = (k, clipCell lo hi v) :: clipRowAt col lo hi rest := by
        simp only [clipRowAt]
        rw [if_pos hk]
      rw [e1]
      show (if k = col then some (clipCell lo hi v)
            else rowGet (clipRowAt col lo hi rest) col)
          = ((if k = col then some v else rowGet rest col).map (clipCell lo hi))
      rw [if_pos hk, if_pos hk]
      rfl
    · have e1 : clipRowAt col lo hi ((k, v) :: rest)
          = (k, v) :: clipRowAt col lo hi rest := by
        simp only [clipRowAt]
        rw [if_neg hk]
      rw [e1]
      show (if k = col then some v else rowGet (clipRowAt col lo hi rest) col)
          = ((if k = col then some v else rowGet rest col).map (clipCell lo hi))
      rw [if_neg hk, if_neg hk]
      exact ih

lemma outOfRange_clipRowAt_ne (col : String) (lo hi : ℚ) (c : String)
    (lo2 hi2 : ℚ) (r : Row) (h : c ≠ col) :
    outOfRange c lo2 hi2 (clipRowAt col lo hi r) = outOfRange c lo2 hi2 r := by
  simp [outOfRange, rowGet_clipRowAt_ne col lo hi r c h]

lemma clipValQ_mem (lo hi q : ℚ) (h : lo ≤ hi) :
    lo ≤ clipValQ lo hi q ∧ clipValQ lo hi q ≤ hi := by
  unfold clipValQ
  exact ⟨le_min (le_max_right q lo) h, min_le_right _ hi⟩

lemma inRangeRow_clipRowAt_self (col : String) (lo hi : ℚ) (r : Row)
    (h : lo ≤ hi) : inRangeRow col lo hi (clipRowAt col lo hi r) := by
  intro q hq
  rw [rowGet_clipRowAt_self] at hq
  cases hv : rowGet r col with
  | none => rw [hv] at hq; cases hq
  | some v =>
    rw [hv] at hq
    cases v with
    | str s => simp [clipCell] at hq
    | num q0 =>
      simp [clipCell] at hq
      exact hq ▸ clipValQ_mem lo hi q0 h

lemma inRangeRow_of_not_outOfRange (col : String) (lo hi : ℚ) (r : Row)
    (h : outOfRange col lo hi r = false) : inRangeRow col lo hi r := by
  intro q hq
  unfold outOfRange at h
  rw [hq] at h
  simp at h
  constructor <;> linarith [h.1, h.2]

lemma cleanStep_fst (df : List Row) (rule : String × ℚ × ℚ) :
    (cleanStep df rule).1
      = if 0 < df.countP (outOfRange rule.1 rule.2.1 rule.2.2) then
          df.map (clipRowAt rule.1 rule.2.1 rule.2.2)
        else df := rfl

lemma cleanStep_snd (df : List Row) (rule : String × ℚ × ℚ) :
    (cleanStep df rule).2 = df.countP (outOfRange rule.1 rule.2.1 rule.2.2) := rfl

lemma cleanRules_cons_fst (rule : String × ℚ × ℚ) (rest : List (String × ℚ × ℚ))
    (df : List Row) :
    (cleanRules (rule :: rest) df).1 = (cleanRules rest (cleanStep df rule).1).1 := rfl

lemma cleanRules_cons_snd (rule : String × ℚ × ℚ) (rest : List (String × ℚ × ℚ))
    (df : List Row) :
    (cleanRules (rule :: rest) df).2
      = (rule.1, (cleanStep df rule).2) :: (cleanRules rest (cleanStep df rule).1).2 := rfl

lemma cleanStep_inRange (df : List Row) (rule : String × ℚ × ℚ)
    (h : rule.2.1 ≤ rule.2.2) :
    ∀ r ∈ (cleanStep df rule).1, inRangeRow rule.1 rule.2.1 rule.2.2 r := by
  intro r hr
  rw [cleanStep_fst] at hr
  by_cases hc : 0 < df.countP (outOfRange rule.1 rule.2.1 rule.2.2)
  · rw [if_pos hc] at hr
    obtain ⟨r0, _, rfl⟩ := List.mem_map.mp hr
    exact inRangeRow_clipRowAt_self rule.1 rule.2.1 rule.2.2 r0 h
  · rw [if_neg hc] at hr
    have hz : df.countP (outOfRange rule.1 rule.2.1 rule.2.2) = 0 := by omega
    have := List.countP_eq_zero.mp hz r hr
    exact inRangeRow_of_not_outOfRange rule.1 rule.2.1 rule.2.2 r (by
      simpa using this)

lemma cleanStep_rowGet (df : List Row) (rule : String × ℚ × ℚ) (c : String)
    (h : c ≠ rule.1) :
    ∀ r2 ∈ (cleanStep df rule).1, ∃ r ∈ df, rowGet r2 c = rowGet r c := by
  intro r2 hr2
  rw [cleanStep_fst] at hr2
  by_cases hc : 0 < df.countP (outOfRange rule.1 rule.2.1 rule.2.2)
  · rw [if_pos hc] at hr2
    obtain ⟨r0, hr0, rfl⟩ := List.mem_map.mp hr2
    exact ⟨r0, hr0, rowGet_clipRowAt_ne rule.1 rule.2.1 rule.2.2 r0 c h⟩
  · rw [if_neg hc] at hr2
    exact ⟨r2, hr2, rfl⟩

lemma cleanStep_countP (df : List Row) (rule : String × ℚ × ℚ) (c : String)
    (lo hi : ℚ) (h : c ≠ rule.1) :
    ((cleanStep df rule).1).countP (outOfRange c lo hi)
      = df.countP (outOfRange c lo hi) := by
  rw [cleanStep_fst]
  by_cases hc : 0 < df.countP (outOfRange rule.1 rule.2.1 rule.2.2)
  · rw [if_pos hc, List.countP_map]
    apply List.countP_congr
    intro r _
    simp [Function.comp, outOfRange_clipRowAt_ne rule.1 rule.2.1 rule.2.2 c lo hi r h]
  · rw [if_neg hc]

lemma cleanRules_rowGet (rules : List (String × ℚ × ℚ)) (df : List Row)
    (c : String) (h : c ∉ rules.map (fun t => t.1)) :
    ∀ r2 ∈ (cleanRules rules df).1, ∃ r ∈ df, rowGet r2 c = rowGet r c := by
  induction rules generalizing df with
  | nil => intro r2 hr2; exact ⟨r2, hr2, rfl⟩
  | cons rule rest ih =>
    intro r2 hr2
    simp only [List.map_cons, List.mem_cons] at h
    push_neg at h
    obtain ⟨h1, h2⟩ := h
    obtain ⟨r1, hr1, he1⟩ := ih (cleanStep df rule).1 h2 r2 hr2
    obtain ⟨r0, hr0, he0⟩ := cleanStep_rowGet df rule c h1 r1 hr1
    exact ⟨r0, hr0, he1.trans he0⟩

lemma cleanRules_counts (rules : List (String × ℚ × ℚ)) (df : List Row)
    (h : (rules.map (fun t => t.1)).Nodup) :
    (cleanRules rules df).2
      = rules.map (fun rule =>
          (rule.1, df.countP (outOfRange rule.1 rule.2.1 rule.2.2))) := by
  induction rules generalizing df with
  | nil => rfl
  | cons rule rest ih =>
    simp only [List.map_cons, List.nodup_cons] at h
    obtain ⟨h1, h2⟩ := h
    rw [cleanRules_cons_snd, cleanStep_snd, List.map_cons]
    congr 1
    rw [ih (cleanStep df rule).1 h2]
    apply List.map_congr_left
    intro rule2 hrule2
    have hne : rule2.1 ≠ rule.1 := by
      intro he
      exact h1 (he ▸ List.mem_map_of_mem (fun t => t.1) hrule2)
    rw [cleanStep_countP df rule rule2.1 rule2.2.1 rule2.2.2 hne]

lemma cleanRules_inRange (rules : List (String × ℚ × ℚ)) (df : List Row)
    (hnd : (rules.map (fun t => t.1)).Nodup)
    (hlh : ∀ rule ∈ rules, rule.2.1 ≤ rule.2.2) :
    ∀ rule ∈ rules, ∀ r ∈ (cleanRules rules df).1,
      inRangeRow rule.1 rule.2.1 rule.2.2 r := by
  induction rules generalizing df with
  | nil => intro rule hrule; cases hrule
  | cons rule0 rest ih =>
    simp only [List.map_cons, List.nodup_cons] at hnd
    obtain ⟨h1, h2⟩ := hnd
    intro rule hrule r hr
    rcases List.mem_cons.mp hrule with rfl | hmem
    · have hstep := cleanStep_inRange df rule
        (hlh rule (List.mem_cons_self rule rest))
      rw [cleanRules_cons_fst] at hr
      obtain ⟨r1, hr1, he⟩ := cleanRules_rowGet rest (cleanStep df rule).1
        rule.1 h1 r hr
      intro q hq
      exact hstep r1 hr1 q (he ▸ hq)
    · exact ih (cleanStep df rule0).1 h2
        (fun rl hrl => hlh rl (List.mem_cons_of_mem rule0 hrl)) rule hmem r
        (by rw [cleanRules_cons_fst] at hr; exact hr)

/-! ### Message helpers -/

lemma leadsWith_refl (l : List Char) : leadsWith l l = true := by
  induction l with
  | nil => rfl
  | cons a as ih => simp [leadsWith, ih]

lemma hasSub_append_self (sub pre : List Char) :
    hasSub sub (pre ++ sub) = true := by
  induction pre with
  | nil =>
    cases sub with
    | nil => rfl
    | cons b bs =>
      rw [List.nil_append]
      show (leadsWith (b :: bs) (b :: bs) || hasSub (b :: bs) bs) = true
      rw [leadsWith_refl]
      simp
  | cons c cs ih =>
    rw [List.cons_append]
    show (leadsWith sub (c :: (cs ++ sub)) || hasSub sub (cs ++ sub)) = true
    rw [ih]
    simp

lemma containsSub_append_self (s t : String) : containsSub (s ++ t) t = true := by
  unfold containsSub
  have : (s ++ t).toList = s.toList ++ t.toList := by
    simp [String.toList]
  rw [this]
  exact hasSub_append_self t.toList s.toList

lemma mentionsTrainFirst_preprocessorMissing (p : String) :
    mentionsTrainFirst (.preprocessorMissing p) = true := by
  unfold mentionsTrainFirst errMessage
  exact containsSub_append_self _ _

lemma mentionsTrainFirst_modelFileMissing (p : String) :
    mentionsTrainFirst (.modelFileMissing p) = true := by
  unfold mentionsTrainFirst errMessage
  exact containsSub_append_self _ _

/-! ### Fixture evaluation lemmas -/

lemma artC_eq : fitPreWith trainRowsC required_features (fun _ => 0) = artC := by
  simp [fitPreWith, artC, num_features, cat_features, required_features,
    colMean, colVals, listMean, trainRowsC, mkTrainRow, rowGet, fitVocab,
    sortVals, insertVal, valLE, List.dedup, List.elem]
  decide

lemma colVar_trainRowsC : ∀ f ∈ num_features, colVar trainRowsC f = 0 := by
  intro f hf
  fin_cases hf <;>
    simp [colVar, colVals, listVar, listMean, trainRowsC, mkTrainRow, rowGet]

lemma vocab_major : fitVocab trainRowsC "major" = [.str "A", .str "B"] := by
  simp [fitVocab, trainRowsC, mkTrainRow, rowGet, List.dedup, List.elem,
    sortVals, insertVal, valLE]
  decide

lemma vocab_gender : fitVocab trainRowsC "gender" = [.num 0, .num 1] := by
  simp [fitVocab, trainRowsC, mkTrainRow, rowGet, List.dedup, List.elem,
    sortVals, insertVal, valLE]

lemma vocab_club : fitVocab trainRowsC "club_participation" = [.num 0, .num 1] := by
  simp [fitVocab, trainRowsC, mkTrainRow, rowGet, List.dedup, List.elem,
    sortVals, insertVal, valLE]

lemma fitC_spec : fitPreSpec trainRowsC required_features artC :=
  ⟨fun _ => 0,
   fun f hf => ⟨le_refl 0, by rw [colVar_trainRowsC f hf]; norm_num⟩,
   artC_eq.symm⟩

lemma rgGood_major : rowGet rowGood "major" = some (.str "A") := rfl
lemma rgGood_gender : rowGet rowGood "gender" = some (.num 1) := rfl
lemma rgGood_att : rowGet rowGood "attendance" = some (.num 30) := rfl
lemma rgGood_hw : rowGet rowGood "homework_completion" = some (.num (9 / 10)) := rfl
lemma rgGood_lib : rowGet rowGood "lib_borrow" = some (.num 4) := rfl
lemma rgGood_club : rowGet rowGood "club_participation" = some (.num 1) := rfl
lemma rgGood_ci : rowGet rowGood "class_interaction" = some (.num 10) := rfl
lemma rgGood_es : rowGet rowGood "exam_score" = some (.num 90) := rfl

lemma transGood : artC.transformRow rowGood = .ok
    [.num 0, .num 0, .num 0, .num 0, .num 0, .num 0, .num 1, .num 1] := by
  simp [FittedPre.transformRow, artC, mapE, scaleLookup, oheLookup, remLookup,
    rowGet, rowGood, mkTrainRow, FittedScaler.transform]

lemma round2_3 : round2 3 = 3 := by norm_num [round2, roundHalfEven]

lemma round2_4 : round2 4 = 4 := by norm_num [round2, roundHalfEven]

lemma clipQ_3 : clipQ 1 4 3 = 3 := by norm_num [clipQ]

lemma clipQ_73 : clipQ 1 4 73 = 4 := by norm_num [clipQ]

lemma mpredGood : modelC.predict [0, 0, 0, 0, 0, 0, 1, 1] = 3 := by
  norm_num [LinearModel.predict, dotQ, modelC]

lemma predGood : predict_gpa envC (.vdict rowGood) (.vstr "root") = .ok 3 := by
  simp [predict_gpa, envC, fsC, FS.isDir, FS.pathExists, joinPath,
    required_features, numeric_features, isNumericVal,
    rgGood_major, rgGood_gender, rgGood_att, rgGood_hw, rgGood_lib,
    rgGood_club, rgGood_ci, rgGood_es,
    transGood, asNums, mpredGood, clipQ_3, round2_3]

lemma rgUnseen_major : rowGet rowUnseen "major" = some (.str "C") := rfl
lemma rgUnseen_gender : rowGet rowUnseen "gender" = some (.num 1) := rfl
lemma rgUnseen_att : rowGet rowUnseen "attendance" = some (.num 30) := rfl
lemma rgUnseen_hw : rowGet rowUnseen "homework_completion" = some (.num (9 / 10)) := rfl
lemma rgUnseen_lib : rowGet rowUnseen "lib_borrow" = some (.num 4) := rfl
lemma rgUnseen_club : rowGet rowUnseen "club_participation" = some (.num 1) := rfl
lemma rgUnseen_ci : rowGet rowUnseen "class_interaction" = some (.num 10) := rfl
lemma rgUnseen_es : rowGet rowUnseen "exam_score" = some (.num 90) := rfl

lemma transUnseen : artC.transformRow rowUnseen
    = .error (.unseenCategory "major") := by
  simp [FittedPre.transformRow, artC, mapE, scaleLookup, oheLookup, remLookup,
    rowGet, rowUnseen, mkTrainRow, FittedScaler.transform]

lemma predUnseen : predict_gpa envC (.vdict rowUnseen) (.vstr "root")
    = .error (.transformErr (.unseenCategory "major")) := by
  simp [predict_gpa, envC, fsC, FS.isDir, FS.pathExists, joinPath,
    required_features, numeric_features, isNumericVal,
    rgUnseen_major, rgUnseen_gender, rgUnseen_att, rgUnseen_hw, rgUnseen_lib,
    rgUnseen_club, rgUnseen_ci, rgUnseen_es, transUnseen]

lemma rgOOR_major : rowGet rowOOR "major" = some (.str "A") := rfl
lemma rgOOR_gender : rowGet rowOOR "gender" = some (.num 1) := rfl
lemma rgOOR_att : rowGet rowOOR "attendance" = some (.num 100) := rfl
lemma rgOOR_hw : rowGet rowOOR "homework_completion" = some (.num (9 / 10)) := rfl
lemma rgOOR_lib : rowGet rowOOR "lib_borrow" = some (.num 4) := rfl
lemma rgOOR_club : rowGet rowOOR "club_participation" = some (.num 1) := rfl
lemma rgOOR_ci : rowGet rowOOR "class_interaction" = some (.num 10) := rfl
lemma rgOOR_es : rowGet rowOOR "exam_score" = some (.num 90) := rfl

lemma transOOR : artC.transformRow rowOOR = .ok
    [.num 70, .num 0, .num 0, .num 0, .num 0, .num 0, .num 1, .num 1] := by
  simp [FittedPre.transformRow, artC, mapE, scaleLookup, oheLookup, remLookup,
    rowGet, rowOOR, FittedScaler.transform]
  norm_num

lemma mpredOOR : modelC.predict [70, 0, 0, 0, 0, 0, 1, 1] = 73 := by
  norm_num [LinearModel.predict, dotQ, modelC]

lemma predOOR : predict_gpa envC (.vdict rowOOR) (.vstr "root") = .ok 4 := by
  simp [predict_gpa, envC, fsC, FS.isDir, FS.pathExists, joinPath,
    required_features, numeric_features, isNumericVal,
    rgOOR_major, rgOOR_gender, rgOOR_att, rgOOR_hw, rgOOR_lib,
    rgOOR_club, rgOOR_ci, rgOOR_es,
    transOOR, asNums, mpredOOR, clipQ_73, round2_4]

lemma trans99 : artC.transformRow row99 = .ok
    [.num 69, .num 0, .num 0, .num 0, .num 0, .num 0, .num 1, .num 1] := by
  simp [FittedPre.transformRow, artC, mapE, scaleLookup, oheLookup, remLookup,
    rowGet, row99, FittedScaler.transform]
  norm_num

lemma rg7_es : rowGet row7 "exam_score" = none := rfl

lemma pred7 : predict_gpa envC (.vdict row7) (.vstr "root")
    = .error (.missingFeatures ["exam_score"]) := by
  simp [predict_gpa, envC, fsC, FS.isDir, FS.pathExists, joinPath,
    required_features, numeric_features, isNumericVal, row7, rowGet]

lemma predNoDir : predict_gpa envNoDir (.vdict rowGood) (.vstr "root")
    = .error (.modelsDirMissing "root/models") := by
  simp [predict_gpa, envNoDir, FS.isDir, FS.pathExists, joinPath]

lemma predNoPre7 : predict_gpa envNoPre (.vdict row7) (.vstr "root")
    = .error (.preprocessorMissing "root/models/feature_preprocessor.pkl") := by
  simp [predict_gpa, envNoPre, FS.isDir, FS.pathExists, joinPath]

lemma mentionsTrainFirst_noDir :
    mentionsTrainFirst (.modelsDirMissing "root/models") = false := by
  decide

/-! ### Claim theorems -/

/-- C2: for every input row missing one or more of the 8 required feature
keys (artifacts present and loadable at the artifact location), predict_gpa
fails with the missing-feature error (the ValueError of predict.py line 53)
that names exactly the omitted keys. -/
theorem C2_missing_feature_error (env : Env) (row : Row) (root : String)
    (model : LinearModel) (pre : FittedPre)
    (hdir : env.fs.isDir root = true)
    (hmd : env.fs.pathExists (joinPath root "models") = true)
    (hpp : env.fs.pathExists
      (joinPath (joinPath root "models") "feature_preprocessor.pkl") = true)
    (hmp : env.fs.pathExists
      (joinPath (joinPath root "models") "linear_regression.pkl") = true)
    (hm : env.modelArtifact = some model)
    (hp : env.preArtifact = some pre)
    (hmiss : required_features.filter (fun f => (rowGet row f).isNone) ≠ []) :
    predict_gpa env (.vdict row) (.vstr root)
      = .error (.missingFeatures
          (required_features.filter (fun f => (rowGet row f).isNone)))
    ∧ ∀ f, f ∈ required_features.filter (fun f => (rowGet row f).isNone)
        ↔ (f ∈ required_features ∧ rowGet row f = none) := by
  constructor
  · rcases hfe : required_features.filter (fun f => (rowGet row f).isNone)
      with _ | ⟨a, l⟩
    · exact absurd hfe hmiss
    · simp only [predict_gpa, hdir, hmd, hpp, hmp, hm, hp, hfe, if_true]
      simp
  · intro f
    simp [List.mem_filter, Option.isNone_iff_eq_none]

/-- Witness for C2 at the concrete 7-key row `row7`. -/
theorem C2_witness :
    predict_gpa envC (.vdict row7) (.vstr "root")
      = .error (.missingFeatures
          (required_features.filter (fun f => (rowGet row7 f).isNone)))
    ∧ ∀ f, f ∈ required_features.filter (fun f => (rowGet row7 f).isNone)
        ↔ (f ∈ required_features ∧ rowGet row7 f = none) :=
  C2_missing_feature_error envC row7 "root" modelC artC rfl rfl rfl rfl rfl rfl
    (by simp [required_features, row7, rowGet])

/-- C10: predict_gpa raises TypeError for a non-dict first argument and
NotADirectoryError for a project root that is not a string naming an
existing directory, and these two pre-checks precede the artifact-existence
checks and the row validation (they fire for every environment, including
ones with no artifacts, and every row, including invalid ones). -/
theorem C10_prechecks :
    (∀ env pr, predict_gpa env .vother pr = .error .typeErrNotDict)
    ∧ (∀ env s pr, predict_gpa env (.vstr s) pr = .error .typeErrNotDict)
    ∧ (∀ env r root, env.fs.isDir root = false →
        predict_gpa env (.vdict r) (.vstr root) = .error .notADirectory)
    ∧ (∀ env r, predict_gpa env (.vdict r) .vother = .error .notADirectory)
    ∧ (∀ env r r2, predict_gpa env (.vdict r) (.vdict r2) = .error .notADirectory) := by
  refine ⟨fun env pr => rfl, fun env s pr => rfl, fun env r root h => ?_,
    fun env r => rfl, fun env r r2 => rfl⟩
  simp [predict_gpa, h]

/-- Witness for C10 at concrete inputs. -/
theorem C10_witness :
    predict_gpa envC .vother (.vstr "root") = .error .typeErrNotDict
    ∧ predict_gpa envC (.vdict rowGood) (.vstr "nowhere") = .error .notADirectory :=
  ⟨C10_prechecks.1 envC (.vstr "root"),
   C10_prechecks.2.2.1 envC rowGood "nowhere" (by decide)⟩

/-- C9 counterexample: with the models directory itself absent, both
artifacts are absent at the artifact location, and predict_gpa raises a
FileNotFoundError whose message does NOT carry the train-the-model-first
instruction, contradicting the claim that the message always instructs to
train first. -/
theorem C9_counterexample :
    predict_gpa envNoDir (.vdict rowGood) (.vstr "root")
      = .error (.modelsDirMissing "root/models")
    ∧ mentionsTrainFirst (.modelsDirMissing "root/models") = false
    ∧ envNoDir.fs.pathExists "root/models/feature_preprocessor.pkl" = false
    ∧ envNoDir.fs.pathExists "root/models/linear_regression.pkl" = false :=
  ⟨predNoDir, mentionsTrainFirst_noDir, rfl, rfl⟩

/-- C9 amended: when the models directory exists but either artifact file is
absent, predict_gpa fails, before transforming or predicting and for every
row, with a FileNotFoundError whose message instructs to train the model
first; when the models directory itself is absent it still fails before any
output, but the message names the missing directory without that
instruction (see the counterexample). -/
theorem C9_artifact_missing_amended (env : Env) (root : String)
    (hdir : env.fs.isDir root = true)
    (hmd : env.fs.pathExists (joinPath root "models") = true)
    (habs : env.fs.pathExists
        (joinPath (joinPath root "models") "feature_preprocessor.pkl") = false
      ∨ env.fs.pathExists
        (joinPath (joinPath root "models") "linear_regression.pkl") = false) :
    ∀ row : Row, ∃ e : PError,
      predict_gpa env (.vdict row) (.vstr root) = .error e
      ∧ mentionsTrainFirst e = true := by
  intro row
  by_cases hpp : env.fs.pathExists
      (joinPath (joinPath root "models") "feature_preprocessor.pkl") = true
  · have hmp : env.fs.pathExists
        (joinPath (joinPath root "models") "linear_regression.pkl") = false := by
      rcases habs with h | h
      · rw [hpp] at h; cases h
      · exact h
    refine ⟨.modelFileMissing (joinPath (joinPath root "models") "linear_regression.pkl"),
      ?_, mentionsTrainFirst_modelFileMissing _⟩
    simp [predict_gpa, hdir, hmd, hpp, hmp]
  · have hpp2 : env.fs.pathExists
        (joinPath (joinPath root "models") "feature_preprocessor.pkl") = false := by
      simpa using hpp
    refine ⟨.preprocessorMissing (joinPath (joinPath root "models") "feature_preprocessor.pkl"),
      ?_, mentionsTrainFirst_preprocessorMissing _⟩
    simp [predict_gpa, hdir, hmd, hpp2]

/-- Witness for the amended C9 at the concrete preprocessor-less
environment. -/
theorem C9_witness :
    ∃ e : PError, predict_gpa envNoPre (.vdict rowGood) (.vstr "root") = .error e
      ∧ mentionsTrainFirst e = true :=
  C9_artifact_missing_amended envNoPre "root" rfl rfl (Or.inl rfl) rowGood

/-- C6 counterexample: a row missing the required exam_score key, given an
environment whose preprocessor artifact is absent, is rejected with the
artifact FileNotFoundError, not the missing-feature error — so validation
does NOT precede artifact loading. -/
theorem C6_counterexample :
    rowGet row7 "exam_score" = none
    ∧ predict_gpa envNoPre (.vdict row7) (.vstr "root")
        = .error (.preprocessorMissing "root/models/feature_preprocessor.pkl")
    ∧ isMissingFeaturesErr (predict_gpa envNoPre (.vdict row7) (.vstr "root"))
        = false := by
  refine ⟨rfl, predNoPre7, ?_⟩
  rw [predNoPre7]
  rfl

/-- C6 amended: predict_gpa checks artifact existence BEFORE validating the
row; with the preprocessor artifact absent, every row — also one missing a
required key — gets the artifact FileNotFoundError, never the
missing-feature error. -/
theorem C6_validation_order_amended (env : Env) (root : String)
    (hdir : env.fs.isDir root = true)
    (hmd : env.fs.pathExists (joinPath root "models") = true)
    (hpre : env.fs.pathExists
      (joinPath (joinPath root "models") "feature_preprocessor.pkl") = false) :
    ∀ row : Row,
      predict_gpa env (.vdict row) (.vstr root)
        = .error (.preprocessorMissing
            (joinPath (joinPath root "models") "feature_preprocessor.pkl"))
      ∧ isMissingFeaturesErr (predict_gpa env (.vdict row) (.vstr root)) = false := by
  intro row
  have h1 : predict_gpa env (.vdict row) (.vstr root)
      = .error (.preprocessorMissing
          (joinPath (joinPath root "models") "feature_preprocessor.pkl")) := by
    simp [predict_gpa, hdir, hmd, hpre]
  exact ⟨h1, by rw [h1]; rfl⟩

/-- Witness for the amended C6 at the concrete 7-key row. -/
theorem C6_witness :
    predict_gpa envNoPre (.vdict row7) (.vstr "root")
      = .error (.preprocessorMissing
          (joinPath (joinPath "root" "models") "feature_preprocessor.pkl"))
    ∧ isMissingFeaturesErr (predict_gpa envNoPre (.vdict row7) (.vstr "root"))
        = false :=
  C6_validation_order_amended envNoPre "root" rfl rfl rfl row7

/-- C3 counterexample: the fitted encoder has vocabulary ["A", "B"] for
major; transforming a row with the unseen major "C" raises the
unseen-category error instead of producing the all-zero indicator vector. -/
theorem C3_counterexample :
    fitPreSpec trainRowsC required_features artC
    ∧ rowGet rowUnseen "major" = some (.str "C")
    ∧ (fitVocab trainRowsC "major").contains (.str "C") = false
    ∧ artC.transformRow rowUnseen = .error (.unseenCategory "major") :=
  ⟨fitC_spec, rfl, by rw [vocab_major]; rfl, transUnseen⟩

/-- C3 amended: for a categorical value never seen during fit, Transform
raises an error (sklearn OneHotEncoder defaults to handle_unknown="error";
the code does not override it), rather than emitting all-zero indicators:
the transform never succeeds on such a row. -/
theorem C3_unseen_category_amended (rows : List Row) (fitCols : List String)
    (art : FittedPre) (r : Row) (f : String) (v : Value)
    (hpre : fitPreSpec rows fitCols art)
    (hf : f ∈ cat_features)
    (hv : rowGet r f = some v)
    (hunseen : v ∉ fitVocab rows f) :
    ∀ out : List Value, art.transformRow r ≠ .ok out := by
  obtain ⟨std, hstd, rfl⟩ := hpre
  intro out hok
  unfold FittedPre.transformRow at hok
  rcases h1 : mapE (fun p => scaleLookup r p.1 p.2)
      (fitPreWith rows fitCols std).numScalers with e | nums
  · rw [h1] at hok
    cases hok
  · rw [h1] at hok
    rcases h2 : mapE (fun p => oheLookup r p.1 p.2)
        (fitPreWith rows fitCols std).catVocabs with e | cats
    · rw [h2] at hok
      cases hok
    · have hmem : (f, fitVocab rows f) ∈ (fitPreWith rows fitCols std).catVocabs := by
        simp only [fitPreWith]
        exact List.mem_map_of_mem (fun g => (g, fitVocab rows g)) hf
      obtain ⟨y, hy⟩ := mapE_ok_forall_mem _ _ cats h2 (f, fitVocab rows f) hmem
      unfold oheLookup at hy
      rw [hv] at hy
      simp [hunseen] at hy

/-- Witness for the amended C3 at the concrete fitted artifact and the
unseen major "C": the transform does not return the vector the all-zero
passthrough convention would have produced. -/
theorem C3_witness : artC.transformRow rowUnseen
    ≠ .ok [.num 0, .num 0, .num 0, .num 0, .num 0, .num 0, .num 1, .num 1] :=
  C3_unseen_category_amended trainRowsC required_features artC rowUnseen
    "major" (.str "C") fitC_spec (by decide) rfl
    (by rw [vocab_major]; decide)
    [.num 0, .num 0, .num 0, .num 0, .num 0, .num 0, .num 1, .num 1]

/-- C5 counterexample: the attendance column has zero variance at fit time
(constant value 30), yet transforming a row with attendance 99 yields
99 - 30 = 69 for that column, not 0 — the zero-variance convention is
"divide by 1", not "output 0". -/
theorem C5_counterexample :
    fitPreSpec trainRowsC required_features artC
    ∧ colVar trainRowsC "attendance" = 0
    ∧ rowGet row99 "attendance" = some (.num 99)
    ∧ artC.transformRow row99
        = .ok [.num 69, .num 0, .num 0, .num 0, .num 0, .num 0, .num 1, .num 1]
    ∧ (69 : ℚ) ≠ 0 :=
  ⟨fitC_spec, colVar_trainRowsC "attendance" (by decide), rfl, trans99,
   by norm_num⟩

/-- C5 amended: if fit observed a numeric column with zero variance, the
fitted scaler divides by 1 instead of the zero std (no NaN, no division
error), so Transform yields (value - fit mean) for that column — 0 exactly
when the row's value equals the constant observed at fit. -/
theorem C5_zero_variance_amended (rows : List Row) (fitCols : List String)
    (art : FittedPre) (f : String) (sc : FittedScaler) (v : ℚ)
    (hpre : fitPreSpec rows fitCols art)
    (hf : f ∈ num_features)
    (hvar : colVar rows f = 0)
    (hsc : (f, sc) ∈ art.numScalers) :
    sc.transform v = v - colMean rows f
    ∧ (v = colMean rows f → sc.transform v = 0) := by
  obtain ⟨std, hstd, rfl⟩ := hpre
  simp only [fitPreWith, List.mem_map] at hsc
  obtain ⟨f0, hf0, heq⟩ := hsc
  have hfeq : f0 = f := congrArg Prod.fst heq
  subst hfeq
  have hsceq : sc = ⟨colMean rows f0, std f0⟩ := (congrArg Prod.snd heq).symm
  have hstd0 : std f0 = 0 := by
    have h2 := (hstd f0 hf0).2
    rw [hvar] at h2
    exact (pow_eq_zero_iff two_ne_zero).mp h2
  subst hsceq
  constructor
  · simp [FittedScaler.transform, hstd0]
  · intro hveq
    simp [FittedScaler.transform, hstd0, hveq]

/-- Witness for the amended C5: the concrete zero-variance attendance
scaler maps 99 to 99 - 30. -/
theorem C5_witness :
    FittedScaler.transform ⟨30, 0⟩ 99 = 99 - colMean trainRowsC "attendance"
    ∧ ((99 : ℚ) = colMean trainRowsC "attendance" →
        FittedScaler.transform ⟨30, 0⟩ 99 = 0) :=
  C5_zero_variance_amended trainRowsC required_features artC "attendance"
    ⟨30, 0⟩ 99 fitC_spec (by decide)
    (colVar_trainRowsC "attendance" (by decide)) (by simp [artC])

/-- C4: a preprocessor fitted on training rows with the 8 schema columns
transforms a row (numeric cells numeric, categorical cells seen at fit)
into the vector laid out as the 5 standardized numeric columns in declared
order followed by each categorical feature's indicator columns in
vocabulary order with the first category dropped (`transformedRow`), whose
dimension is 5 plus the sum over the 3 categorical features of (distinct
fit-time categories - 1). -/
theorem C4_transform_dimension (rows : List Row) (art : FittedPre) (r : Row)
    (hpre : fitPreSpec rows required_features art)
    (hnum : ∀ f ∈ num_features, ∃ q : ℚ, rowGet r f = some (.num q))
    (hcat : ∀ f ∈ cat_features, ∃ v, rowGet r f = some v ∧ v ∈ fitVocab rows f) :
    ∃ std : String → ℚ,
      art.transformRow r = .ok (transformedRow rows std r)
      ∧ (transformedRow rows std r).length
          = 5 + (cat_features.map (fun f => (fitVocab rows f).length - 1)).sum := by
  obtain ⟨std, hstd, rfl⟩ := hpre
  exact ⟨std, transformRow_fitPreWith rows std r hnum hcat,
    transformedRow_length rows std r⟩

/-- Witness for C4 at the concrete fitted artifact and row. -/
theorem C4_witness :
    ∃ std : String → ℚ,
      artC.transformRow rowGood = .ok (transformedRow trainRowsC std rowGood)
      ∧ (transformedRow trainRowsC std rowGood).length
          = 5 + (cat_features.map
              (fun f => (fitVocab trainRowsC f).length - 1)).sum :=
  C4_transform_dimension trainRowsC artC rowGood fitC_spec
    (by
      intro f hf
      fin_cases hf
      · exact ⟨30, rgGood_att⟩
      · exact ⟨9 / 10, rgGood_hw⟩
      · exact ⟨4, rgGood_lib⟩
      · exact ⟨10, rgGood_ci⟩
      · exact ⟨90, rgGood_es⟩)
    (by
      intro f hf
      fin_cases hf
      · exact ⟨.str "A", rgGood_major, by rw [vocab_major]; decide⟩
      · exact ⟨.num 1, rgGood_gender, by rw [vocab_gender]; norm_num⟩
      · exact ⟨.num 1, rgGood_club, by rw [vocab_club]; norm_num⟩)

/-- C1 counterexample: a row holding all 8 required keys with numeric-typed
numeric features, against a fitted artifact present and loadable, on which
predict_gpa does NOT return a clipped rounded float: its major "C" was
unseen at fit time, so the pipeline raises the unseen-category error. -/
theorem C1_counterexample :
    required_features.all (fun f => (rowGet rowUnseen f).isSome) = true
    ∧ numeric_features.all (fun f => isNumericVal (rowGet rowUnseen f)) = true
    ∧ envC.fs.pathExists "root/models/feature_preprocessor.pkl" = true
    ∧ envC.fs.pathExists "root/models/linear_regression.pkl" = true
    ∧ fitPreSpec trainRowsC required_features artC
    ∧ predict_gpa envC (.vdict rowUnseen) (.vstr "root")
        = .error (.transformErr (.unseenCategory "major")) :=
  ⟨by simp [required_features, rowUnseen, mkTrainRow, rowGet],
   by simp [numeric_features, isNumericVal, rowUnseen, mkTrainRow, rowGet],
   rfl, rfl, fitC_spec, predUnseen⟩

/-- C1 amended: for every feature row with all 8 required keys,
numeric-typed numeric features AND categorical values observed at fit time,
with both fitted artifacts present and loadable, predict_gpa returns the
raw linear estimate of the transformed row clamped to [1, 4] and rounded to
2 decimals, a value inside [1.0, 4.0]. -/
theorem C1_range_invariant_amended (rows : List Row) (env : Env) (row : Row)
    (root : String) (model : LinearModel) (pre : FittedPre)
    (hpre : fitPreSpec rows required_features pre)
    (hdir : env.fs.isDir root = true)
    (hmd : env.fs.pathExists (joinPath root "models") = true)
    (hpp : env.fs.pathExists
      (joinPath (joinPath root "models") "feature_preprocessor.pkl") = true)
    (hmp : env.fs.pathExists
      (joinPath (joinPath root "models") "linear_regression.pkl") = true)
    (hm : env.modelArtifact = some model)
    (hp : env.preArtifact = some pre)
    (hnum : ∀ f ∈ num_features, ∃ q : ℚ, rowGet row f = some (.num q))
    (hcat : ∀ f ∈ cat_features, ∃ v, rowGet row f = some v ∧ v ∈ fitVocab rows f) :
    ∃ (g : ℚ) (vals : List Value) (xs : List ℚ),
      pre.transformRow row = .ok vals
      ∧ asNums vals = some xs
      ∧ predict_gpa env (.vdict row) (.vstr root) = .ok g
      ∧ g = round2 (clipQ 1 4 (model.predict xs))
      ∧ 1 ≤ g ∧ g ≤ 4 := by
  obtain ⟨std, hstd, rfl⟩ := hpre
  have htrans := transformRow_fitPreWith rows std row hnum hcat
  have hnums := asNums_transformedRow rows std row
  have hmiss : required_features.filter (fun f => (rowGet row f).isNone) = [] := by
    rw [List.filter_eq_nil_iff]
    intro f hf
    have hsplit : f ∈ num_features ∨ f ∈ cat_features := by
      fin_cases hf <;> simp [num_features, cat_features]
    rcases hsplit with h | h
    · obtain ⟨q, hq⟩ := hnum f h
      simp [hq]
    · obtain ⟨v, hv, _⟩ := hcat f h
      simp [hv]
  have hfind : numeric_features.find?
      (fun f => !isNumericVal (rowGet row f)) = none := by
    rw [List.find?_eq_none]
    intro f hf
    have hf2 : f ∈ num_features := hf
    obtain ⟨q, hq⟩ := hnum f hf2
    simp [isNumericVal, hq]
  have hpred := predict_gpa_ok env row root model
    (fitPreWith rows required_features std) _ _ hdir hmd hpp hmp hm hp hmiss
    hfind htrans hnums
  have hclip := clipQ_bounds (model.predict
    ((num_features.map fun f =>
        FittedScaler.transform ⟨colMean rows f, std f⟩ (numValOf row f))
      ++ (cat_features.map fun f =>
        (fitVocab rows f).tail.map fun c =>
          if c = catValOf row f then (1 : ℚ) else 0).flatten))
  have hrange := round2_clip_bounds _ hclip.1 hclip.2
  exact ⟨_, _, _, htrans, hnums, hpred, rfl, hrange.1, hrange.2⟩

/-- Witness for the amended C1 at the concrete environment and row. -/
theorem C1_witness :
    ∃ (g : ℚ) (vals : List Value) (xs : List ℚ),
      artC.transformRow rowGood = .ok vals
      ∧ asNums vals = some xs
      ∧ predict_gpa envC (.vdict rowGood) (.vstr "root") = .ok g
      ∧ g = round2 (clipQ 1 4 (modelC.predict xs))
      ∧ 1 ≤ g ∧ g ≤ 4 :=
  C1_range_invariant_amended trainRowsC envC rowGood "root" modelC artC
    fitC_spec rfl rfl rfl rfl rfl rfl
    (by
      intro f hf
      fin_cases hf
      · exact ⟨30, rgGood_att⟩
      · exact ⟨9 / 10, rgGood_hw⟩
      · exact ⟨4, rgGood_lib⟩
      · exact ⟨10, rgGood_ci⟩
      · exact ⟨90, rgGood_es⟩)
    (by
      intro f hf
      fin_cases hf
      · exact ⟨.str "A", rgGood_major, by rw [vocab_major]; decide⟩
      · exact ⟨.num 1, rgGood_gender, by rw [vocab_gender]; norm_num⟩
      · exact ⟨.num 1, rgGood_club, by rw [vocab_club]; norm_num⟩)

/-- C8 counterexample: a row whose attendance 100 lies outside the declared
domain range 20-32 is NOT rejected by predict_gpa — the prediction
succeeds (returning 4 after clipping the estimate). -/
theorem C8_counterexample :
    outOfRange "attendance" 20 32 rowOOR = true
    ∧ predict_gpa envC (.vdict rowOOR) (.vstr "root") = .ok 4 :=
  ⟨by rw [outOfRange, rgOOR_att]; norm_num, predOOR⟩

/-- C8 amended: the predict path applies no domain-range validation: a row
passing the key and dtype checks is accepted and predicted even when some
numeric feature lies outside its declared domain range. -/
theorem C8_out_of_range_amended (env : Env) (row : Row) (root : String)
    (model : LinearModel) (pre : FittedPre) (vals : List Value) (xs : List ℚ)
    (hdir : env.fs.isDir root = true)
    (hmd : env.fs.pathExists (joinPath root "models") = true)
    (hpp : env.fs.pathExists
      (joinPath (joinPath root "models") "feature_preprocessor.pkl") = true)
    (hmp : env.fs.pathExists
      (joinPath (joinPath root "models") "linear_regression.pkl") = true)
    (hm : env.modelArtifact = some model)
    (hp : env.preArtifact = some pre)
    (hmiss : required_features.filter (fun f => (rowGet row f).isNone) = [])
    (hfind : numeric_features.find? (fun f => !isNumericVal (rowGet row f)) = none)
    (htrans : pre.transformRow row = .ok vals)
    (hnums : asNums vals = some xs)
    (hoor : ∃ rule ∈ clip_rules, outOfRange rule.1 rule.2.1 rule.2.2 row = true) :
    predict_gpa env (.vdict row) (.vstr root)
      = .ok (round2 (clipQ 1 4 (model.predict xs))) :=
  predict_gpa_ok env row root model pre vals xs hdir hmd hpp hmp hm hp hmiss
    hfind htrans hnums

/-- Witness for the amended C8 at the out-of-range attendance row. -/
theorem C8_witness :
    predict_gpa envC (.vdict rowOOR) (.vstr "root")
      = .ok (round2 (clipQ 1 4 (modelC.predict [70, 0, 0, 0, 0, 0, 1, 1]))) :=
  C8_out_of_range_amended envC rowOOR "root" modelC artC
    [.num 70, .num 0, .num 0, .num 0, .num 0, .num 0, .num 1, .num 1]
    [70, 0, 0, 0, 0, 0, 1, 1] rfl rfl rfl rfl rfl rfl
    (by simp [required_features, rowOOR, rowGet])
    (by simp [numeric_features, isNumericVal, rowOOR, rowGet])
    transOOR
    (by simp [asNums])
    ⟨("attendance", 20, 32), by simp [clip_rules],
     by rw [outOfRange, rgOOR_att]; norm_num⟩

/-- C7: the training data-cleaning path clips every out-of-range value of
gpa, attendance, homework_completion, lib_borrow, class_interaction and
exam_score into its declared range (non-fatally) and reports, per column,
the count of corrected rows; the predict path applies no clipping or range
re-validation to its input row: the returned value is the clamped rounded
estimate of the raw row's transform. -/
theorem C7_clip_asymmetry (df : List Row) (env : Env) (row : Row)
    (root : String) (model : LinearModel) (pre : FittedPre)
    (vals : List Value) (xs : List ℚ)
    (hdir : env.fs.isDir root = true)
    (hmd : env.fs.pathExists (joinPath root "models") = true)
    (hpp : env.fs.pathExists
      (joinPath (joinPath root "models") "feature_preprocessor.pkl") = true)
    (hmp : env.fs.pathExists
      (joinPath (joinPath root "models") "linear_regression.pkl") = true)
    (hm : env.modelArtifact = some model)
    (hp : env.preArtifact = some pre)
    (hmiss : required_features.filter (fun f => (rowGet row f).isNone) = [])
    (hfind : numeric_features.find? (fun f => !isNumericVal (rowGet row f)) = none)
    (htrans : pre.transformRow row = .ok vals)
    (hnums : asNums vals = some xs) :
    (∀ rule ∈ clip_rules, ∀ r2 ∈ (cleanData df).1,
      inRangeRow rule.1 rule.2.1 rule.2.2 r2)
    ∧ (cleanData df).2 = clip_rules.map (fun rule =>
        (rule.1, df.countP (outOfRange rule.1 rule.2.1 rule.2.2)))
    ∧ predict_gpa env (.vdict row) (.vstr root)
        = .ok (round2 (clipQ 1 4 (model.predict xs))) := by
  have hnd : (clip_rules.map (fun t => t.1)).Nodup := by decide
  have hlh : ∀ rule ∈ clip_rules, rule.2.1 ≤ rule.2.2 := by
    intro rule h
    fin_cases h <;> norm_num
  exact ⟨cleanRules_inRange clip_rules df hnd hlh,
    cleanRules_counts clip_rules df hnd,
    predict_gpa_ok env row root model pre vals xs hdir hmd hpp hmp hm hp
      hmiss hfind htrans hnums⟩

/-- Witness for C7 at the concrete dirty table and prediction scenario. -/
theorem C7_witness :
    (∀ rule ∈ clip_rules, ∀ r2 ∈ (cleanData dfDirty).1,
      inRangeRow rule.1 rule.2.1 rule.2.2 r2)
    ∧ (cleanData dfDirty).2 = clip_rules.map (fun rule =>
        (rule.1, dfDirty.countP (outOfRange rule.1 rule.2.1 rule.2.2)))
    ∧ predict_gpa envC (.vdict rowGood) (.vstr "root")
        = .ok (round2 (clipQ 1 4 (modelC.predict [0, 0, 0, 0, 0, 0, 1, 1]))) :=
  C7_clip_asymmetry dfDirty envC rowGood "root" modelC artC
    [.num 0, .num 0, .num 0, .num 0, .num 0, .num 0, .num 1, .num 1]
    [0, 0, 0, 0, 0, 0, 1, 1] rfl rfl rfl rfl rfl rfl
    (by simp [required_features, rowGood, mkTrainRow, rowGet])
    (by simp [numeric_features, isNumericVal, rowGood, mkTrainRow, rowGet])
    transGood
    (by simp [asNums])

end GpaPredict
